import Mathlib

/-!
Shallow embedding of `src/modules/howtos/examples/search.py`, a
documentation-as-code module of the couchbase Python SDK docs.  The module
interleaves AsciiDoc prose (in docstrings) with executable snippet code inside
the static method `Search.__call__`.  The definitions below transcribe the
executable statements of that method — the couchbase query/option constructor
calls, the eight `cluster.search_query` call sites, the one try/except block,
the result-member reads, and the RYOW (read-your-own-writes) snippet — and the
theorems settle structural properties of that transcription.
-/

namespace SearchPy

/-- Query-expression constructors actually invoked in the source:
`QueryStringQuery("query")` (seven times) and `PrefixQuery("airports-")`
(once, line 149). -/
inductive QueryExpr where
  | QueryStringQuery (query : String)
  | PrefixQuery (pre : String)
deriving DecidableEq, BEq, Repr

/-- The kinds of query expression enumerated by the spec (section 6 / the
Available Search Queries table): query-string, match, phrase, prefix, regex,
term/numeric/date range, conjunction/disjunction, wildcard, doc-id,
boolean-field, match-all, match-none, geo-bounding-box, geo-distance. -/
inductive QueryKind where
  | queryString
  | matchText
  | phraseText
  | prefixText
  | regexText
  | termRange
  | numericRange
  | dateRange
  | conjunction
  | disjunction
  | wildcard
  | docId
  | booleanField
  | matchAll
  | matchNone
  | geoBoundingBox
  | geoDistance
deriving DecidableEq, BEq, Repr

/-- The kind of each query expression the source constructs. -/
def queryKind : QueryExpr → QueryKind
  | QueryExpr.QueryStringQuery _ => QueryKind.queryString
  | QueryExpr.PrefixQuery _ => QueryKind.prefixText

/-- The full list of kinds the spec enumerates. -/
def specEnumeratedKinds : List QueryKind :=
  [QueryKind.queryString, QueryKind.matchText, QueryKind.phraseText,
   QueryKind.prefixText, QueryKind.regexText, QueryKind.termRange,
   QueryKind.numericRange, QueryKind.dateRange, QueryKind.conjunction,
   QueryKind.disjunction, QueryKind.wildcard, QueryKind.docId,
   QueryKind.booleanField, QueryKind.matchAll, QueryKind.matchNone,
   QueryKind.geoBoundingBox, QueryKind.geoDistance]

/-- `HighlightStyle.HTML`, the only member of the imported `HighlightStyle`
enum the source uses (line 221). -/
inductive HighlightStyle where
  | HTML
deriving DecidableEq, BEq, Repr

/-- Sort specifications constructed at line 240: `SortScore()` and
`SortField("field")`. -/
inductive SortSpec where
  | SortScore
  | SortField (field : String)
deriving DecidableEq, BEq, Repr

/-- Facet constructor used at line 260: `TermFacet("category", 5)`. -/
inductive SearchFacet where
  | TermFacet (field : String) (size : Nat)
deriving DecidableEq, BEq, Repr

/-- The result of `collection.upsert("key", {})` at line 194, identified by
the key written. -/
structure MutationResult where
  key : String
deriving DecidableEq, BEq, Repr

/-- `MutationState` from `couchbase.mutation_state`: a collection of mutation
results (line 195 builds one with `MutationState().add_results(...)`). -/
structure MutationState where
  results : List MutationResult
deriving DecidableEq, BEq, Repr

/-- `MutationState()`: the empty state. -/
def MutationState.empty : MutationState := ⟨[]⟩

/-- `MutationState.add_results(mutation_result)` (line 195). -/
def MutationState.add_results (st : MutationState) (r : MutationResult) :
    MutationState :=
  ⟨st.results ++ [r]⟩

/-- One keyword argument to the `SearchOptions` constructor, or one option
method invoked on a `SearchOptions` object, exactly as the source sets it. -/
inductive OptionSetting where
  | fields (fs : List String)
  | skip (n : Nat)
  | limit (n : Nat)
  | highlight_style (s : HighlightStyle)
  | highlight_fields (fs : List String)
  | sort (ss : List SortSpec)
  | facets (m : List (String × SearchFacet))
  | consistent_with (st : MutationState)
deriving DecidableEq, BEq, Repr

/-- An options bundle: the settings of one `SearchOptions(...)` expression,
in source order. -/
def SearchOptionsBundle : Type := List OptionSetting

/-- The option names the spec enumerates in its Available Search Options
table: limit, skip, explain, the two consistency-mode options, highlight
style/fields, sort, facets, fields, serializer, raw. -/
inductive OptionName where
  | limit
  | skip
  | explain
  | scan_consistency
  | consistent_with
  | highlight_style
  | highlight_fields
  | sort
  | facets
  | fields
  | serializer
  | raw
deriving DecidableEq, BEq, Repr

/-- The name under which each setting of the source appears in the options
table. -/
def OptionSetting.optName : OptionSetting → OptionName
  | OptionSetting.fields _ => OptionName.fields
  | OptionSetting.skip _ => OptionName.skip
  | OptionSetting.limit _ => OptionName.limit
  | OptionSetting.highlight_style _ => OptionName.highlight_style
  | OptionSetting.highlight_fields _ => OptionName.highlight_fields
  | OptionSetting.sort _ => OptionName.sort
  | OptionSetting.facets _ => OptionName.facets
  | OptionSetting.consistent_with _ => OptionName.consistent_with

/-- All option names the spec enumerates. -/
def specEnumeratedOptionNames : List OptionName :=
  [OptionName.limit, OptionName.skip, OptionName.explain,
   OptionName.scan_consistency, OptionName.consistent_with,
   OptionName.highlight_style, OptionName.highlight_fields, OptionName.sort,
   OptionName.facets, OptionName.fields, OptionName.serializer,
   OptionName.raw]

/-- Objects a snippet calls `search_query` on.  The source binds `cluster`
(line 43), `bucket` (line 44) and `collection` (line 45). -/
inductive Receiver where
  | cluster
  | bucket
  | collection
deriving DecidableEq, BEq, Repr

/-- One `search_query` call site: its receiver, its positional index-name
argument, its query-expression argument, and its options argument when
present. -/
structure SearchCall where
  receiver : Receiver
  index : String
  query : QueryExpr
  options : Option (List OptionSetting)
deriving DecidableEq, BEq, Repr

/-- The mutation state built in the RYOW snippet (line 195):
`MutationState().add_results(mutation_result)` where `mutation_result` is the
upsert of key `"key"`. -/
def ryowMutationState : MutationState :=
  MutationState.empty.add_results ⟨"key"⟩

/-- The eight `search_query` call sites of the file, in source order:
lines 61 (simple), 149 (squery), 168 (limit), 197 (ryow), 218 (highlight),
237 (sort), 257 (facets) and 275 (fields). -/
def searchCalls : List SearchCall :=
  [⟨Receiver.cluster, "index", QueryExpr.QueryStringQuery "query", none⟩,
   ⟨Receiver.cluster, "my-index-name", QueryExpr.PrefixQuery "airports-",
    some [OptionSetting.fields ["field-1"]]⟩,
   ⟨Receiver.cluster, "index", QueryExpr.QueryStringQuery "query",
    some [OptionSetting.skip 3, OptionSetting.limit 4]⟩,
   ⟨Receiver.cluster, "index", QueryExpr.QueryStringQuery "query",
    some [OptionSetting.consistent_with ryowMutationState]⟩,
   ⟨Receiver.cluster, "index", QueryExpr.QueryStringQuery "query",
    some [OptionSetting.highlight_style HighlightStyle.HTML,
          OptionSetting.highlight_fields ["field1", "field2"]]⟩,
   ⟨Receiver.cluster, "index", QueryExpr.QueryStringQuery "query",
    some [OptionSetting.sort [SortSpec.SortScore, SortSpec.SortField "field"]]⟩,
   ⟨Receiver.cluster, "index", QueryExpr.QueryStringQuery "query",
    some [OptionSetting.facets [("categories", SearchFacet.TermFacet "category" 5)]]⟩,
   ⟨Receiver.cluster, "index", QueryExpr.QueryStringQuery "query",
    some [OptionSetting.fields ["field1", "field2"]]⟩]

/-- Every query expression constructed anywhere in the program; each
construction occurs as the second argument of a `search_query` call. -/
def constructedQueries : List QueryExpr :=
  searchCalls.map SearchCall.query

/-- Every options bundle constructed in the program; each occurs as the third
argument of a `search_query` call. -/
def optionBundles : List (List OptionSetting) :=
  searchCalls.filterMap SearchCall.options

/-- A positional argument of a `search_query` call. -/
inductive PyArg where
  | strLit (s : String)
  | queryArg (q : QueryExpr)
  | optionsArg (o : List OptionSetting)
deriving DecidableEq, BEq, Repr

/-- The positional argument list of a call site, as written in the source:
index name first, query expression second, options (when present) third. -/
def SearchCall.argList (c : SearchCall) : List PyArg :=
  [PyArg.strLit c.index, PyArg.queryArg c.query] ++
    (match c.options with
     | some o => [PyArg.optionsArg o]
     | none => [])

/-- A call is well-formed in the claim's sense when its first argument is a
string index name, its second a query expression whose kind the spec
enumerates. -/
def searchCallWellFormed (c : SearchCall) : Bool :=
  match c.argList with
  | PyArg.strLit _ :: PyArg.queryArg q :: _ =>
      specEnumeratedKinds.contains (queryKind q)
  | _ => false

/-- True when the call's receiver is the `cluster` variable. -/
def receiverIsCluster (c : SearchCall) : Bool :=
  match c.receiver with
  | Receiver.cluster => true
  | _ => false

/-- The callee of a call expression: a name imported at module top, a static
method of an imported class, or a method of a local variable. -/
inductive Callee where
  | imported (name : String)
  | staticMethod (cls : String) (m : String)
  | method (obj : String) (m : String)
deriving DecidableEq, BEq, Repr

/-- One executed call, together with the variable its result is bound to
(when the source binds one). -/
structure Operation where
  binds : Option String
  callee : Callee
deriving DecidableEq, BEq, Repr

/-- The simple (function or method) name a callee is invoked under. -/
def Callee.calledName : Callee → String
  | Callee.imported n => n
  | Callee.staticMethod _ m => m
  | Callee.method _ m => m

/-- The names `search.py` imports from the `couchbase` packages
(lines 29-33). -/
def couchbaseImportedNames : List String :=
  ["Cluster", "ClusterOptions", "PasswordAuthenticator", "CouchbaseException",
   "QueryStringQuery", "SearchQuery", "SearchOptions", "PrefixQuery",
   "HighlightStyle", "SortField", "SortScore", "TermFacet", "MutationState"]

/-- Variables of `Search.__call__` bound to values produced by couchbase
library calls (connection handles, query results, iteration variables of
result sequences, mutation results/states). -/
def libraryBoundVars : List String :=
  ["cluster", "bucket", "collection", "result", "row", "hit", "facet",
   "search_result", "mutation_result", "mutation_state"]

/-- Every couchbase-API operation the executable snippets perform, in source
order: connect (line 43) with its option/authenticator constructors, bucket
and collection resolution (44-45), the query/option constructions and the
eight `search_query` calls, the result-member calls, the upsert and mutation
state of the RYOW snippet. -/
def couchbaseOperations : List Operation :=
  [⟨none, Callee.imported "PasswordAuthenticator"⟩,
   ⟨none, Callee.imported "ClusterOptions"⟩,
   ⟨some "cluster", Callee.staticMethod "Cluster" "connect"⟩,
   ⟨some "bucket", Callee.method "cluster" "bucket"⟩,
   ⟨some "collection", Callee.method "bucket" "default_collection"⟩,
   ⟨none, Callee.imported "QueryStringQuery"⟩,
   ⟨some "result", Callee.method "cluster" "search_query"⟩,
   ⟨none, Callee.method "result" "rows"⟩,
   ⟨none, Callee.method "result" "metadata"⟩,
   ⟨none, Callee.imported "PrefixQuery"⟩,
   ⟨none, Callee.imported "SearchOptions"⟩,
   ⟨some "result", Callee.method "cluster" "search_query"⟩,
   ⟨none, Callee.method "result" "rows"⟩,
   ⟨none, Callee.method "row" "score"⟩,
   ⟨none, Callee.method "row" "id"⟩,
   ⟨none, Callee.method "row" "fields"⟩,
   ⟨none, Callee.imported "QueryStringQuery"⟩,
   ⟨none, Callee.imported "SearchOptions"⟩,
   ⟨some "result", Callee.method "cluster" "search_query"⟩,
   ⟨some "mutation_result", Callee.method "collection" "upsert"⟩,
   ⟨none, Callee.imported "MutationState"⟩,
   ⟨some "mutation_state", Callee.method "MutationState()" "add_results"⟩,
   ⟨none, Callee.imported "QueryStringQuery"⟩,
   ⟨none, Callee.imported "SearchOptions"⟩,
   ⟨none, Callee.method "SearchOptions()" "consistent_with"⟩,
   ⟨some "search_result", Callee.method "cluster" "search_query"⟩,
   ⟨none, Callee.imported "QueryStringQuery"⟩,
   ⟨none, Callee.imported "SearchOptions"⟩,
   ⟨some "result", Callee.method "cluster" "search_query"⟩,
   ⟨none, Callee.imported "QueryStringQuery"⟩,
   ⟨none, Callee.imported "SortScore"⟩,
   ⟨none, Callee.imported "SortField"⟩,
   ⟨none, Callee.imported "SearchOptions"⟩,
   ⟨some "result", Callee.method "cluster" "search_query"⟩,
   ⟨none, Callee.imported "QueryStringQuery"⟩,
   ⟨none, Callee.imported "TermFacet"⟩,
   ⟨none, Callee.imported "SearchOptions"⟩,
   ⟨some "result", Callee.method "cluster" "search_query"⟩,
   ⟨none, Callee.imported "QueryStringQuery"⟩,
   ⟨none, Callee.imported "SearchOptions"⟩,
   ⟨some "result", Callee.method "cluster" "search_query"⟩,
   ⟨none, Callee.method "result" "hits"⟩,
   ⟨none, Callee.method "result" "facets"⟩]

/-- The non-couchbase calls the snippets perform: the Python builtins
`print`, `str.format` and `dict`, and the stdlib calls `logging.error` and
`traceback.format_exc` of the except handler. -/
def otherExecutableCalls : List Operation :=
  [⟨none, Callee.imported "print"⟩,
   ⟨none, Callee.method "str" "format"⟩,
   ⟨none, Callee.imported "dict"⟩,
   ⟨none, Callee.method "logging" "error"⟩,
   ⟨none, Callee.method "traceback" "format_exc"⟩]

/-- Every call an executable statement of the module performs. -/
def allExecutableCalls : List Operation :=
  couchbaseOperations ++ otherExecutableCalls

/-- Receivers of chained method calls that are themselves fresh results of an
imported couchbase constructor: the `SearchOptions()` of line 200 and the
`MutationState()` of line 195. -/
def intermediateLibraryObjects : List String :=
  ["SearchOptions()", "MutationState()"]

/-- An operation is a direct library invocation when its callee is a name
imported from couchbase, a static method of an imported class, or a method of
a value produced by the library (a variable bound to a library result, or a
fresh constructor result in a chained call). -/
def isLibraryInvocation (op : Operation) : Bool :=
  match op.callee with
  | Callee.imported n => couchbaseImportedNames.contains n
  | Callee.staticMethod cls _ => couchbaseImportedNames.contains cls
  | Callee.method obj _ =>
      libraryBoundVars.contains obj || intermediateLibraryObjects.contains obj

/-- The module's top-level definitions: the sole class `Search`
(lines 39-45). -/
def moduleTopLevelDefs : List String := ["Search"]

/-- The methods the `Search` class defines: the single static `__call__`. -/
def searchClassMethods : List String := ["__call__"]

/-- Names that would indicate an async or reactive API call or an explicit
batch request, per the reactive snippets the document shows only in comments
and prose. -/
def asyncReactiveNames : List String :=
  ["reactive", "searchQuery", "flatMapMany", "subscribe", "request", "async"]

/-- True when the operation invokes an async/reactive API or performs an
explicit batch request. -/
def isAsyncReactiveCall (op : Operation) : Bool :=
  asyncReactiveNames.contains op.callee.calledName ||
    (match op.callee with
     | Callee.method obj _ => asyncReactiveNames.contains obj
     | _ => false)

/-- Commented-out lines of the reactive fragment (lines 283-291, each
prefixed by `#` in the source) together with prose lines of the backpressure
section (lines 379 and 386), the only places async/reactive APIs and explicit
batch requests appear. -/
def commentedOrProseReactiveLines : List String :=
  ["#   Mono<ReactiveSearchResult> result = cluster",
   "#     .reactive()",
   "#     .searchQuery(\"index\", SearchQuery.queryString(\"query\"));",
   "#   result",
   "#     .flatMapMany(ReactiveSearchResult::rows)",
   "#     .subscribe(row -> System.out.println(\"Found row: \" + row));",
   "If you want to manually control the data flow (which is important if you are streaming a lot of rows which could cause a potential out of memory situation) you can do this by using explicit `request()` calls.",
   "In this example we initially request a batch size of 10 rows (so streaming can begin)."]

/-- True when the first character list is an initial segment of the
second. -/
def charsStartWith : List Char → List Char → Bool
  | [], _ => true
  | _ :: _, [] => false
  | w :: ws, c :: cs => w == c && charsStartWith ws cs

/-- True when the first character list occurs contiguously inside the
second. -/
def charsContain (word : List Char) : List Char → Bool
  | [] => word.isEmpty
  | c :: cs => charsStartWith word (c :: cs) || charsContain word cs

/-- True when a text line mentions the given word. -/
def lineMentions (word line : String) : Bool :=
  charsContain word.data line.data

/-- What an except handler body does.  The one handler in the file only logs
the traceback (`logging.error(traceback.format_exc())`, line 68). -/
inductive HandlerAction where
  | logTraceback
  | retry
  | reraise
deriving DecidableEq, BEq, Repr

/-- One `except` clause: the exception type name it catches and its body's
actions. -/
structure ExceptClause where
  exceptionType : String
  actions : List HandlerAction
deriving DecidableEq, BEq, Repr

/-- One try/except construct: the operations of its try suite and its except
clauses. -/
structure TryBlock where
  body : List Operation
  handlers : List ExceptClause
deriving DecidableEq, BEq, Repr

/-- The operations of the try suite of the simple snippet (lines 60-66, as
intended): the query construction, the search call, and the row/metadata
reads of its body. -/
def simpleTryOps : List Operation :=
  [⟨none, Callee.imported "QueryStringQuery"⟩,
   ⟨some "result", Callee.method "cluster" "search_query"⟩,
   ⟨none, Callee.method "result" "rows"⟩,
   ⟨none, Callee.imported "print"⟩,
   ⟨none, Callee.method "result" "metadata"⟩]

/-- Every try/except construct in the file: exactly the one of the simple
snippet, catching `CouchbaseException` and logging the traceback. -/
def tryBlocks : List TryBlock :=
  [⟨simpleTryOps, [⟨"CouchbaseException", [HandlerAction.logTraceback]⟩]⟩]

/-- Every member access the program performs on a search result or on a value
drawn from one, as (variable, attribute path) pairs in source order:
the simple snippet reads `result.rows()` and
`result.metadata().metrics().total_rows()` (lines 63-66); the squery snippet
reads `result.rows()`, `row.score()`, `row.id()` and `row.fields()`
(lines 151-156); the simpleresult snippet reads `result.hits()`, `hit.id` and
`hit.score` (lines 308-310); the simplefacetresult snippet reads
`result.facets()`, `facet.name` and `facet.total` (lines 320-322). -/
def resultMemberReads : List (String × List String) :=
  [("result", ["rows"]),
   ("result", ["metadata", "metrics", "total_rows"]),
   ("result", ["rows"]),
   ("row", ["score"]),
   ("row", ["id"]),
   ("row", ["fields"]),
   ("result", ["hits"]),
   ("hit", ["id"]),
   ("hit", ["score"]),
   ("result", ["facets"]),
   ("facet", ["name"]),
   ("facet", ["total"])]

/-- Written from the claim's words, for comparison with the reads of the
source: the result surface the spec lists — on the result, the sequence of
hit rows, the facet collection, or the metadata total row count; on a hit
row, its id, score or field values; on a facet aggregate, its name or
total. -/
def specResultSurface : String × List String → Bool
  | ("result", ["rows"]) => true
  | ("result", ["hits"]) => true
  | ("result", ["facets"]) => true
  | ("result", ["metadata", "metrics", "total_rows"]) => true
  | ("row", ["id"]) => true
  | ("row", ["score"]) => true
  | ("row", ["fields"]) => true
  | ("hit", ["id"]) => true
  | ("hit", ["score"]) => true
  | ("hit", ["fields"]) => true
  | ("facet", ["name"]) => true
  | ("facet", ["total"]) => true
  | _ => false

/-- A statement of the RYOW snippet (lines 193-200), with the variable it
binds and the variable it consumes. -/
inductive RyowStmt where
  | upsertStmt (binds : String) (key : String)
  | addResultsStmt (binds : String) (source : String)
  | searchWithState (binds : String) (stateVar : String)
deriving DecidableEq, BEq, Repr

/-- The variable a RYOW statement binds. -/
def RyowStmt.producesVar : RyowStmt → String
  | RyowStmt.upsertStmt b _ => b
  | RyowStmt.addResultsStmt b _ => b
  | RyowStmt.searchWithState b _ => b

/-- The earlier-bound variable a RYOW statement consumes, when it consumes
one. -/
def RyowStmt.consumesVar : RyowStmt → Option String
  | RyowStmt.upsertStmt _ _ => none
  | RyowStmt.addResultsStmt _ s => some s
  | RyowStmt.searchWithState _ s => some s

/-- True for the upsert statement. -/
def RyowStmt.isUpsert : RyowStmt → Bool
  | RyowStmt.upsertStmt _ _ => true
  | _ => false

/-- True for the search statement. -/
def RyowStmt.isSearch : RyowStmt → Bool
  | RyowStmt.searchWithState _ _ => true
  | _ => false

/-- The RYOW snippet's three statements in source order:
`mutation_result = collection.upsert("key", {})` (line 194);
`mutation_state = MutationState().add_results(mutation_result)` (line 195);
`search_result = cluster.search_query(..., consistent_with(mutation_state))`
(lines 197-200). -/
def ryowSnippet : List RyowStmt :=
  [RyowStmt.upsertStmt "mutation_result" "key",
   RyowStmt.addResultsStmt "mutation_state" "mutation_result",
   RyowStmt.searchWithState "search_result" "mutation_state"]

/-- Modelled from the spec: the metadata of a search result of the external
service, carrying the total row count and the partial-failure error list the
prose of lines 341-344 describes.  The service itself is not in the
repository's sources. -/
structure SearchMetaDataM where
  total_rows : Nat
  errors : List String
deriving DecidableEq, BEq, Repr

/-- Modelled from the spec: a search result of the external service, reduced
to the metadata surface claim C6 is about. -/
structure SearchResultM where
  metadata : SearchMetaDataM
deriving DecidableEq, BEq, Repr

/-- Modelled from the spec: one execution outcome of a `search_query` call —
either the call raises an exception of the named type, or it returns a
result; the spec's prose says the service may return a result whose metadata
error list is non-empty (partial success, some index partitions
unavailable). -/
inductive ServiceOutcome where
  | raised (e : String)
  | returned (r : SearchResultM)
deriving DecidableEq, BEq, Repr

/-- An outcome exhibits partial failure when the call returned a result whose
metadata error list is non-empty. -/
def hasPartialFailure : ServiceOutcome → Bool
  | ServiceOutcome.raised _ => false
  | ServiceOutcome.returned r => !r.metadata.errors.isEmpty

/-- Whether an except clause runs on a given outcome: only when the call
raised an exception of the caught type. -/
def handlerCatches (h : ExceptClause) : ServiceOutcome → Bool
  | ServiceOutcome.raised e => h.exceptionType == e
  | ServiceOutcome.returned _ => false

/-- Whether the program's one try/except (lines 60-68) detects a failure on a
given outcome of the wrapped `search_query` call. -/
def simpleHandlerDetects (o : ServiceOutcome) : Bool :=
  tryBlocks.any (fun tb => tb.handlers.any (fun h => handlerCatches h o))

/-- The text of line 61 of the source, inside the try suite. -/
def simpleLine61 : String := "result = cluster.search_query(\"index\","

/-- The text of line 62 of the source. -/
def simpleLine62 : String := "QueryStringQuery(\"query\"))"

/-- The text of line 63 of the source. -/
def simpleLine63 : String := "for row in result.rows():"

/-- The text of line 64 of the source (its string literal holds a brace pair,
written here with escapes). -/
def simpleLine64 : String := "print(\"Found row \x7b\x7d\".format(row)"

/-- The text of line 65 of the source. -/
def simpleLine65 : String := "print(\"Reported total rows: \""

/-- The text of line 66 of the source, the last line before the `except`
clause of line 67. -/
def simpleLine66 : String := "+ result.metadata().metrics().total_rows())"

/-- The try suite of the simple snippet, line by line (lines 61-66),
whitespace stripped. -/
def simpleTryBodyLines : List String :=
  [simpleLine61, simpleLine62, simpleLine63, simpleLine64, simpleLine65,
   simpleLine66]

/-- One step of a parenthesis scan over Python source text: the state is
(inside-a-string-literal, open-parenthesis depth); a double quote toggles the
string state, and parentheses outside string literals adjust the depth. -/
def parenStep (st : Bool × Int) (c : Char) : Bool × Int :=
  if st.1 then
    if c = '"' then (false, st.2) else (true, st.2)
  else if c = '"' then (true, st.2)
  else if c = '(' then (false, st.2 + 1)
  else if c = ')' then (false, st.2 - 1)
  else st

/-- Scan one line of source text, character by character. -/
def lineScan (st : Bool × Int) (line : String) : Bool × Int :=
  line.data.foldl parenStep st

/-- Scan a list of source lines from the balanced initial state. -/
def scanLines (lines : List String) : Bool × Int :=
  lines.foldl lineScan (false, 0)

/-- The open-parenthesis depth at the end of the try suite, when the `except`
keyword of line 67 is reached. -/
def simpleTryBodyParenDepth : Int := (scanLines simpleTryBodyLines).2

/-- C1: every search request in the program supplies a string index name as
its first argument and a query expression as its second, and every query
expression constructed in the program (seven `QueryStringQuery`, one
`PrefixQuery`) is of a kind the spec enumerates; no call omits the index name
or passes a query of another kind. -/
theorem C1_search_calls_well_formed :
    searchCalls.all searchCallWellFormed = true ∧
    constructedQueries.all
      (fun q => specEnumeratedKinds.contains (queryKind q)) = true := by
  decide

/-- C2: the program contains exactly one error-handling construct; it wraps
the `search_query` call of the simple snippet, catches the single broad
`CouchbaseException` type, and its handler only logs the traceback — no
narrower exception type is caught anywhere and no retry or recovery action is
taken. -/
theorem C2_single_generic_handler :
    tryBlocks.length = 1 ∧
    tryBlocks.all (fun tb =>
      tb.handlers ==
        [ExceptClause.mk "CouchbaseException" [HandlerAction.logTraceback]] &&
      tb.body.any (fun op =>
        op.callee == Callee.method "cluster" "search_query")) = true := by
  decide

/-- C3: every member the program reads off a search result or a value drawn
from one — the hit sequence with id, score and field values, the facet
collection with name and total, the metadata total row count — lies inside
the surface the spec lists; no read falls outside it. -/
theorem C3_result_reads_within_spec_surface :
    resultMemberReads.all specResultSurface = true := by
  decide

/-- C4: every options bundle constructed in the program sets only option
names the spec enumerates, and the snippets pass skip/limit integers, a
highlight style plus field list, a sort specification list, a facet map and a
field-selection list exactly as the claim describes. -/
theorem C4_options_within_enumerated_names :
    optionBundles.all (fun b =>
      b.all (fun s =>
        specEnumeratedOptionNames.contains s.optName)) = true ∧
    optionBundles.contains
      [OptionSetting.skip 3, OptionSetting.limit 4] = true ∧
    optionBundles.contains
      [OptionSetting.highlight_style HighlightStyle.HTML,
       OptionSetting.highlight_fields ["field1", "field2"]] = true ∧
    optionBundles.contains
      [OptionSetting.sort
        [SortSpec.SortScore, SortSpec.SortField "field"]] = true ∧
    optionBundles.contains
      [OptionSetting.facets
        [("categories", SearchFacet.TermFacet "category" 5)]] = true ∧
    optionBundles.contains
      [OptionSetting.fields ["field1", "field2"]] = true := by
  decide

/-- C5: in the RYOW snippet the write strictly precedes the consistent read:
statement 0 is the upsert binding `mutation_result`, statement 1 builds
`mutation_state` from that very result, statement 2 is the search consuming
`mutation_state`; and the fourth `search_query` call of the file passes
exactly the state holding that upsert's mutation via `consistent_with`. -/
theorem C5_ryow_write_precedes_consistent_read :
    ryowSnippet.map RyowStmt.isUpsert = [true, false, false] ∧
    ryowSnippet.map RyowStmt.isSearch = [false, false, true] ∧
    ryowSnippet.map RyowStmt.producesVar =
      ["mutation_result", "mutation_state", "search_result"] ∧
    ryowSnippet.map RyowStmt.consumesVar =
      [none, some "mutation_result", some "mutation_state"] ∧
    (searchCalls.map SearchCall.options).take 4 =
      [none, some [OptionSetting.fields ["field-1"]],
       some [OptionSetting.skip 3, OptionSetting.limit 4],
       some [OptionSetting.consistent_with ryowMutationState]] := by
  decide

/-- C6: there is an outcome of the wrapped `search_query` call in which no
exception is raised yet the returned result's metadata error list is
non-empty, and the program's one try/except does not detect it — partial
failure is invisible to a caller that only catches exceptions. -/
theorem C6_partial_failure_invisible_to_handler :
    ∃ o : ServiceOutcome,
      hasPartialFailure o = true ∧ simpleHandlerDetects o = false :=
  ⟨ServiceOutcome.returned ⟨⟨42, ["index partition 7 unavailable"]⟩⟩,
   by decide, by decide⟩

/-- C7: the module's only top-level definition is the `Search` class with its
single static `__call__` method, and every couchbase operation the snippets
perform — connecting, resolving bucket and collection, constructing query and
options objects, invoking search, reading results — is a direct invocation of
a callable imported from the couchbase library or a method of a value the
library produced. -/
theorem C7_all_operations_library_passthrough :
    moduleTopLevelDefs = ["Search"] ∧
    searchClassMethods = ["__call__"] ∧
    couchbaseOperations.all isLibraryInvocation = true := by
  decide

/-- C8: no executable call of the program invokes an async or reactive API or
performs an explicit batch request; the reactive/async material (including
`.reactive()`, `subscribe` and the explicit `request()` batch flow) appears
only in commented-out fragments and prose lines. -/
theorem C8_async_reactive_only_commented :
    allExecutableCalls.all (fun op => !(isAsyncReactiveCall op)) = true ∧
    commentedOrProseReactiveLines.any (lineMentions "reactive") = true ∧
    commentedOrProseReactiveLines.any (lineMentions "request") = true ∧
    commentedOrProseReactiveLines.any (lineMentions "subscribe") = true := by
  decide

/-- C9 counterexample: the claim counts seven search calls in the file, but
the transcription of the source lists eight `search_query` call sites (lines
61, 149, 168, 197, 218, 237, 257 and 275), so the claim as stated is
false. -/
theorem C9_seven_calls_refuted : (searchCalls.length == 7) = false := by
  decide

/-- C9 amended: every `search_query` invocation in the program is made on the
`cluster` object returned by `Cluster.connect`, never on the bucket or
collection: for all eight search calls in the file the receiver is
`cluster`. -/
theorem C9_all_eight_calls_on_cluster :
    searchCalls.length = 8 ∧ searchCalls.all receiverIsCluster = true := by
  decide

set_option maxRecDepth 8192

/-- C10: scanning the try suite of the simple snippet, the parenthesis depth
is balanced through line 63, becomes 1 after the `print(` of line 64, and is
still 1 when the `except` clause of line 67 is reached — the parenthesis
opened on line 64 is never closed, so the suite is syntactically ill-formed
and the module cannot be parsed verbatim. -/
theorem C10_simple_snippet_unbalanced_paren :
    scanLines (simpleTryBodyLines.take 3) = (false, 0) ∧
    scanLines (simpleTryBodyLines.take 4) = (false, 1) ∧
    simpleTryBodyParenDepth = 1 ∧
    (simpleTryBodyParenDepth == 0) = false := by
  decide

end SearchPy
